import Mathlib

/-
Verification of the Rating-Magic grading assistant.

The development shallowly embeds the data model (src/types.ts, the constants
module) and the logic of src/App.tsx that the specification talks about:
score-threshold derivation, score-to-level classification, the sequential
batch grading loop, CSV export/import, template persistence, and the
structured-response handling of the AI service wrappers.

Host primitives (JavaScript string split / replace / trim on the separators
actually used, which are single characters or the two-character separator
used by label.split) are modelled by character-list recursion with the same
semantics.  JSON.parse and JSON.stringify are host library functions and are
taken as parameters (an abstract parse/serialize oracle) where they matter.
Numbers are modelled as Int (the program only ever produces integer scores
via parseInt and the default levels).
-/

namespace RatingMagic

/-- Embeds the Level record of src/types.ts: label, numeric score, free-text
criteria description. -/
structure Level where
  label : String
  score : Int
  criteria : String
deriving DecidableEq, Repr

/-- Embeds the Criterion record of src/types.ts: id, focus text, list of
levels. -/
structure Criterion where
  id : String
  focus : String
  levels : List Level
deriving DecidableEq, Repr

/-- Embeds the status enum of the Student record of src/types.ts. -/
inductive Status where
  | idle
  | loading
  | done
  | error
deriving DecidableEq, Repr

/-- Embeds the Student record of src/types.ts. -/
structure Student where
  id : String
  name : String
  contents : List String
  feedback : String
  score : Option Int
  levelLabel : String
  status : Status
  errorMsg : Option String
deriving DecidableEq, Repr

/-- Embeds the GradingResult record of src/types.ts. -/
structure GradingResult where
  score : Int
  levelLabel : String
  feedback : String
deriving DecidableEq, Repr

/-- Embeds the Template interface declared in src/App.tsx lines 15-21. -/
structure Template where
  id : String
  name : String
  tasks : List String
  criteria : List Criterion
  timestamp : Int
deriving DecidableEq, Repr

/-- Embeds DEFAULT_LEVELS from the constants module (src/unnamed/part_003). -/
def DEFAULT_LEVELS : List Level := [
  ⟨"超級優異 (Superb)", 100, ""⟩,
  ⟨"表現良好 (Good)", 89, ""⟩,
  ⟨"已經做到 (Done)", 79, ""⟩,
  ⟨"還要加油 (Developing)", 69, ""⟩,
  ⟨"努力改進 (Beginning)", 59, ""⟩]

/-- Placeholder Level used by list lookups with a default; every lookup in a
theorem is guarded so that the default is never read. -/
def defaultLevel : Level := ⟨"", 0, ""⟩

/- ===== Character-level models of the JavaScript string primitives ===== -/

/-- Model of the JavaScript single-character String.prototype.split: splitting
the empty string gives one empty field, separators at the edges give empty
fields, exactly as in JS. -/
def splitCharAux (sep : Char) : List Char → List (List Char)
  | [] => [[]]
  | c :: rest =>
    let r := splitCharAux sep rest
    if c = sep then [] :: r
    else (c :: r.headD []) :: r.tail

/-- String-valued wrapper of splitCharAux. -/
def splitChar (sep : Char) (s : String) : List String :=
  (splitCharAux sep s.toList).map fun cs => String.mk cs

/-- Model of the replace(/"/g, two quotes) call in the CSV export handler
(src/App.tsx line 432): every double quote is doubled. -/
def escapeQuotes : List Char → List Char
  | [] => []
  | c :: rest => if c = '"' then '"' :: '"' :: escapeQuotes rest else c :: escapeQuotes rest

/-- Model of JavaScript Array.prototype.join with a string separator. -/
def joinWith (sep : String) : List String → String
  | [] => ""
  | [x] => x
  | x :: y :: rest => x ++ sep ++ joinWith sep (y :: rest)

/-- Whitespace test covering the characters the repository can feed to
String.prototype.trim. -/
def isWsChar (c : Char) : Bool := c = ' ' || c = '\t' || c = '\n' || c = '\r'

/-- Model of JavaScript String.prototype.trim. -/
def trimChars (s : String) : String :=
  String.mk (((s.toList.dropWhile isWsChar).reverse.dropWhile isWsChar).reverse)

/-- Model of label.split with the space-parenthesis separator used at
src/App.tsx line 112: the prefix of the label before the first occurrence of
a space followed by an opening parenthesis (the whole label when none). -/
def takeUntilSep : List Char → List Char
  | [] => []
  | [c] => [c]
  | c :: d :: rest => if c = ' ' ∧ d = '(' then [] else c :: takeUntilSep (d :: rest)

/-- String-valued wrapper of takeUntilSep. -/
def splitBase (s : String) : String := String.mk (takeUntilSep s.toList)

/- ===== Threshold derivation (src/App.tsx lines 100-119) ===== -/

/-- Embeds the lowerBound computation of src/App.tsx line 106: for a level
index below 4 the next-lower level score plus one, and zero for index 4. -/
def lowerBound (c : Criterion) (lIdx : Nat) : Int :=
  if lIdx < 4 then (c.levels.getD (lIdx + 1) defaultLevel).score + 1 else 0

/-- Embeds one iteration of the criteria.forEach accumulation of src/App.tsx
lines 103-109: the rawFloors entry at each level index of the criterion is
increased by that level's lowerBound. -/
def bumpFloors (c : Criterion) : Nat → List Int → List Int
  | _, [] => []
  | i, a :: rest =>
    (if i < c.levels.length then a + lowerBound c i else a) :: bumpFloors c (i + 1) rest

/-- Embeds the rawFloors accumulator of src/App.tsx lines 101-109 (initial
value the zero vector of length five). -/
def rawFloorsList (criteria : List Criterion) : List Int :=
  criteria.foldl (fun acc c => bumpFloors c 0 acc) [0, 0, 0, 0, 0]

/-- Embeds the maxPossibleScore accumulation of src/App.tsx lines 102-104:
the sum of the top-level scores over all criteria. -/
def maxPossibleScore (criteria : List Criterion) : Int :=
  criteria.foldl (fun acc c => acc + (c.levels.getD 0 defaultLevel).score) 0

/-- Embeds one threshold row built at src/App.tsx lines 110-113. -/
structure Threshold where
  label : String
  floor : Int
  ceiling : Int
deriving DecidableEq, Repr

/-- Embeds totalScoreThresholds of src/App.tsx lines 100-114: the rawFloors
vector is mapped to threshold rows; the ceiling of row zero is
maxPossibleScore and the ceiling of every later row is the previous row's
raw floor minus one; labels come from the DEFAULT_LEVELS labels cut before
the parenthesised suffix. -/
def totalScoreThresholds (criteria : List Criterion) : List Threshold :=
  (List.range (rawFloorsList criteria).length).map (fun i =>
    { label := splitBase ((DEFAULT_LEVELS.getD i defaultLevel).label)
      floor := (rawFloorsList criteria).getD i 0
      ceiling := if i = 0 then maxPossibleScore criteria
                 else (rawFloorsList criteria).getD (i - 1) 0 - 1 })

/-- Embeds the predicate of the find call at src/App.tsx line 117. -/
def bandMatches (score : Int) (t : Threshold) : Bool :=
  decide (t.floor ≤ score) && decide (score ≤ t.ceiling)

/-- Embeds getLevelLabelFromScore of src/App.tsx lines 116-119: the label of
the first threshold row bracketing the score, or the sentinel when none. -/
def getLevelLabelFromScore (criteria : List Criterion) (score : Int) : String :=
  match (totalScoreThresholds criteria).find? (bandMatches score) with
  | some t => t.label
  | none => "未判定"

/- ===== Spec-side restatement of the threshold derivation (claim C2) ===== -/

/-- Spec-side definition, from the words of the claim: the per-criterion
floor of a level is the next-lower level's score plus one, and zero for the
bottom level. -/
def specLevelFloor (c : Criterion) (i : Nat) : Int :=
  if i = 4 then 0 else (c.levels.getD (i + 1) defaultLevel).score + 1

/-- Spec-side definition: the floor vector entry for a level is the sum
across all criteria of that level's per-criterion floor. -/
def specFloor (criteria : List Criterion) (i : Nat) : Int :=
  (criteria.map (fun c => specLevelFloor c i)).sum

/-- Spec-side definition: the sum of the top-level scores of all criteria. -/
def specTopScoreSum (criteria : List Criterion) : Int :=
  (criteria.map (fun c => (c.levels.getD 0 defaultLevel).score)).sum

/-- Spec-side definition: each ceiling is the adjacent higher level's floor
minus one, except the top level's ceiling, which is the sum of the top-level
scores. -/
def specCeiling (criteria : List Criterion) (i : Nat) : Int :=
  if i = 0 then specTopScoreSum criteria else specFloor criteria (i - 1) - 1

/- ===== CSV export and import (src/App.tsx lines 351-358 and 430-436) ===== -/

/-- Embeds the quoting of a content or feedback field at src/App.tsx
line 432: the field is wrapped in double quotes with inner quotes doubled. -/
def csvQuote (s : String) : String :=
  String.mk ('"' :: (escapeQuotes s.toList ++ ['"']))

/-- Embeds the rendering of the nullable score inside Array.prototype.join at
src/App.tsx line 432: null renders as the empty string. -/
def showScore : Option Int → String
  | none => ""
  | some n => toString n

/-- Embeds the CSV header row built at src/App.tsx line 431. -/
def csvHeader (tasks : List String) : String :=
  joinWith "," (["姓名"] ++ (List.range tasks.length).map (fun i => "題" ++ toString (i + 1))
    ++ ["得分", "等級", "評語"])

/-- Embeds one exported CSV row (src/App.tsx line 432): name unquoted, each
answer quoted, then score, level label (unquoted) and quoted feedback. -/
def csvRow (s : Student) : String :=
  joinWith "," ([s.name] ++ s.contents.map csvQuote
    ++ [showScore s.score, s.levelLabel, csvQuote s.feedback])

/-- Embeds the full CSV export text of src/App.tsx lines 430-433: a UTF-8 BOM,
the header, a newline, and the rows joined by newlines. -/
def csvExport (students : List Student) (tasks : List String) : String :=
  "\uFEFF" ++ csvHeader tasks ++ "\n" ++ joinWith "\n" (students.map csvRow)

/-- Embeds the CSV import handler of src/App.tsx lines 353-356: the text is
split on newlines, each row on commas, the first row is dropped, and each
remaining row becomes a fresh student whose name is column zero and whose
answers are the following columns (missing columns default to empty).  The
fresh uuid of the source is modelled by the empty id. -/
def csvImport (text : String) (tasks : List String) : List Student :=
  (((splitChar '\n' text).map (fun x => splitChar ',' x)).drop 1).map (fun r =>
    { id := ""
      name := r.getD 0 ""
      contents := (List.range tasks.length).map (fun i => r.getD (i + 1) "")
      feedback := ""
      score := none
      levelLabel := ""
      status := Status.idle
      errorMsg := none })

/- ===== Batch grading loop (src/App.tsx lines 121-149) ===== -/

/-- The component state touched by the batch grading loop: the students list
and the transient error toast. -/
structure BatchState where
  students : List Student
  errorToast : Option String
deriving DecidableEq, Repr

/-- The toast text set by the catch branch at src/App.tsx line 145. -/
def toastMsg : String := "月亮能量不足（API 頻率限制），評分已暫停。"

/-- The per-student error message set by the catch branch at src/App.tsx
line 144. -/
def errMsgText : String := "能量中斷 (API 頻率限制)"

/-- Embeds the setStudents map of src/App.tsx line 132: the student with the
given id is put into the loading status. -/
def markLoading (id : String) (l : List Student) : List Student :=
  l.map fun st => if st.id == id then { st with status := Status.loading } else st

/-- Embeds the setStudents map of src/App.tsx lines 138-140: on a successful
evaluation the matching student is marked done, given the returned score and
feedback, and given the level label recomputed from the score by
getLevelLabelFromScore (the levelLabel of the result is not consulted). -/
def applySuccess (id : String) (criteria : List Criterion) (res : GradingResult)
    (l : List Student) : List Student :=
  l.map fun st => if st.id == id then
    { st with
      status := Status.done
      score := some res.score
      levelLabel := getLevelLabelFromScore criteria res.score
      feedback := res.feedback }
  else st

/-- Embeds the setStudents map of src/App.tsx line 144: on a failed
evaluation the matching student is marked with the error status and the
error message. -/
def applyFailure (id : String) (l : List Student) : List Student :=
  l.map fun st => if st.id == id then
    { st with status := Status.error, errorMsg := some errMsgText } else st

/-- Embeds one iteration of the batch loop body, src/App.tsx lines 130-146:
mark the target loading, await the evaluation (modelled by the oracle, since
the network outcome is external), and apply the success or catch branch.
The fixed four-second delay of line 141 and the progress counter have no
effect on the students list and are not modelled. -/
def gradeOne (oracle : Student → Except String GradingResult) (criteria : List Criterion)
    (st : BatchState) (s : Student) : BatchState :=
  let loading : BatchState := { st with students := markLoading s.id st.students }
  match oracle s with
  | Except.ok res => { loading with students := applySuccess s.id criteria res loading.students }
  | Except.error _ => { students := applyFailure s.id loading.students, errorToast := some toastMsg }

/-- Embeds the for loop of src/App.tsx lines 129-147 over the captured
targets list; the second component records, in order, the students on which
the evaluation API is invoked. -/
def runBatch (oracle : Student → Except String GradingResult) (criteria : List Criterion) :
    BatchState → List Student → BatchState × List Student
  | st, [] => (st, [])
  | st, s :: rest =>
    let r := runBatch oracle criteria (gradeOne oracle criteria st s) rest
    (r.1, s :: r.2)

/-- Embeds the targets filter of src/App.tsx line 123: students whose status
is not done and that have at least one answer that is non-empty after
trimming. -/
def isTarget (s : Student) : Bool :=
  (!(s.status == Status.done)) && s.contents.any (fun c => !(trimChars c == ""))

/-- Embeds startBatchGrading of src/App.tsx lines 122-149: the loop runs over
the filtered targets (the early return when no targets exist coincides with
running the loop on the empty list). -/
def startBatchGrading (oracle : Student → Except String GradingResult)
    (criteria : List Criterion) (st : BatchState) : BatchState × List Student :=
  runBatch oracle criteria st (st.students.filter isTarget)

/-- The net update applied to a student by the catch branch of the loop
(loading then error, which collapses to error): used to state the failure
theorems. -/
def errUpdate (id : String) (x : Student) : Student :=
  if x.id == id then { x with status := Status.error, errorMsg := some errMsgText } else x

/-- The net update applied to a student by the success branch of the loop
(loading then done with the new score, recomputed label and feedback): used
to state the success theorems. -/
def okUpdate (criteria : List Criterion) (id : String) (res : GradingResult)
    (x : Student) : Student :=
  if x.id == id then
    { x with
      status := Status.done
      score := some res.score
      levelLabel := getLevelLabelFromScore criteria res.score
      feedback := res.feedback }
  else x

/- ===== Template persistence (src/App.tsx lines 79-86, 458-462, 530-534) ===== -/

/-- The template list together with the single local-storage slot named
sailor_grading_templates. -/
structure PersistState where
  templates : List Template
  storageSlot : Option String

/-- Embeds the useEffect of src/App.tsx lines 84-86: the slot is rewritten
with the serialization of the current template list (JSON.stringify is the
abstract serialize parameter). -/
def syncTemplatesStorage (serialize : List Template → String) (st : PersistState) :
    PersistState :=
  { st with storageSlot := some (serialize st.templates) }

/-- The operations that change the template list: saving a new template
(src/App.tsx lines 458-462, which prepends) and deleting one (lines 530-534,
which filters it out by id). -/
inductive TemplateOp where
  | save (t : Template)
  | delete (tid : String)

/-- Embeds one template-list change followed by the storage-sync effect that
React runs after every change of the templates state. -/
def applyTemplateOp (serialize : List Template → String) (st : PersistState) :
    TemplateOp → PersistState
  | TemplateOp.save t =>
    syncTemplatesStorage serialize { st with templates := t :: st.templates }
  | TemplateOp.delete tid =>
    syncTemplatesStorage serialize
      { st with templates := st.templates.filter (fun x => !(x.id == tid)) }

/-- Embeds the startup load of src/App.tsx lines 79-82 together with the sync
effect that follows it: a missing, empty or unparseable slot leaves the list
empty, otherwise the parsed list is installed; the sync effect then rewrites
the slot (JSON.parse is the abstract parse parameter). -/
def startupLoad (serialize : List Template → String)
    (parse : String → Option (List Template)) (slot : Option String) : PersistState :=
  syncTemplatesStorage serialize
    { templates :=
        match slot with
        | none => []
        | some s => if s = "" then [] else (parse s).getD []
      storageSlot := slot }

/-- Runs a sequence of template-list operations. -/
def runTemplateOps (serialize : List Template → String) (st : PersistState)
    (ops : List TemplateOp) : PersistState :=
  ops.foldl (applyTemplateOp serialize) st

/- ===== Rubric-editing operations (claim C8) ===== -/

/-- The criterion created by the initial state (src/App.tsx line 57), the
add-criterion button (line 337) and the new-magic-circle reset (line 200):
empty focus and a fresh copy of DEFAULT_LEVELS. -/
def defaultCriterion (id : String) : Criterion := ⟨id, "", DEFAULT_LEVELS⟩

/-- Replaces the element at an index, leaving the list unchanged when the
index is out of range: the in-place indexed mutation of the UI handlers. -/
def modifyIdx {α : Type} (f : α → α) : Nat → List α → List α
  | _, [] => []
  | 0, a :: as => f a :: as
  | n + 1, a :: as => a :: modifyIdx f n as

/-- Embeds the generated-criteria application of src/App.tsx line 297: the
i-th level's criteria text is replaced by the i-th generated string for every
index present in both lists; the number of levels never changes. -/
def applyRubricTexts : List String → List Level → List Level
  | _, [] => []
  | [], ls => ls
  | t :: ts, l :: ls => { l with criteria := t } :: applyRubricTexts ts ls

/-- The rubric-related component state: tasks, criteria and saved templates. -/
structure AppState where
  tasks : List String
  criteria : List Criterion
  templates : List Template

/-- Embeds the initial component state of src/App.tsx lines 55-58 and 68
(templates start empty; the startup load only restores templates this
application previously saved, which the reachability theorem covers through
the save operation). -/
def initApp (id0 : String) : AppState :=
  { tasks := [""], criteria := [defaultCriterion id0], templates := [] }

/-- The UI event handlers of src/App.tsx that can touch tasks, criteria or
templates, each tagged with its source line. -/
inductive AppOp where
  | addCriterion (id : String)
  | removeCriterion (cid : String)
  | setFocus (cIdx : Nat) (text : String)
  | setLevelScore (cIdx lIdx : Nat) (v : Int)
  | setLevelCriteria (cIdx lIdx : Nat) (text : String)
  | applyRubric (cIdx : Nat) (texts : List String)
  | saveTemplate (id name : String) (timestamp : Int)
  | loadTemplate (tid : String)
  | resetRubric (id : String)
  | deleteTemplate (tid : String)
  | addTask
  | removeTask (i : Nat)
  | setTask (i : Nat) (text : String)

/-- Embeds the handlers: addCriterion appends a default criterion (line 337),
removeCriterion filters by id (line 275), setFocus / setLevelScore /
setLevelCriteria mutate one field in place (lines 288, 318, 326),
applyRubric overwrites level descriptions (line 297), saveTemplate prepends
a template capturing the current tasks and criteria (lines 458-461),
loadTemplate installs a deep copy of a stored template (lines 203-208 and
519-523; a deep copy of an immutable value is the value), resetRubric
restores the single default criterion (lines 198-201), deleteTemplate
filters the template list (lines 530-533), and the task handlers edit the
task list (lines 238, 243, 249). -/
def applyAppOp (st : AppState) : AppOp → AppState
  | AppOp.addCriterion id => { st with criteria := st.criteria ++ [defaultCriterion id] }
  | AppOp.removeCriterion cid =>
    { st with criteria := st.criteria.filter (fun c => !(c.id == cid)) }
  | AppOp.setFocus i text =>
    { st with criteria := modifyIdx (fun c => { c with focus := text }) i st.criteria }
  | AppOp.setLevelScore i j v =>
    { st with
      criteria := modifyIdx
        (fun c => { c with levels := modifyIdx (fun l => { l with score := v }) j c.levels })
        i st.criteria }
  | AppOp.setLevelCriteria i j text =>
    { st with
      criteria := modifyIdx
        (fun c => { c with levels := modifyIdx (fun l => { l with criteria := text }) j c.levels })
        i st.criteria }
  | AppOp.applyRubric i texts =>
    { st with
      criteria := modifyIdx
        (fun c => { c with levels := applyRubricTexts texts c.levels }) i st.criteria }
  | AppOp.saveTemplate id name timestamp =>
    { st with templates := ⟨id, name, st.tasks, st.criteria, timestamp⟩ :: st.templates }
  | AppOp.loadTemplate tid =>
    match st.templates.find? (fun t => t.id == tid) with
    | some t => { st with tasks := t.tasks, criteria := t.criteria }
    | none => st
  | AppOp.resetRubric id => { st with tasks := [""], criteria := [defaultCriterion id] }
  | AppOp.deleteTemplate tid =>
    { st with templates := st.templates.filter (fun t => !(t.id == tid)) }
  | AppOp.addTask => { st with tasks := st.tasks ++ [""] }
  | AppOp.removeTask i => { st with tasks := st.tasks.eraseIdx i }
  | AppOp.setTask i text => { st with tasks := modifyIdx (fun _ => text) i st.tasks }

/-- Runs a sequence of UI operations from a state. -/
def runAppOps (st : AppState) (ops : List AppOp) : AppState :=
  ops.foldl applyAppOp st

/-- Every criterion of the list has exactly five levels. -/
def criteriaFive (cs : List Criterion) : Prop := ∀ c ∈ cs, c.levels.length = 5

/-- Every criterion in the state, including those stored inside saved
templates, has exactly five levels. -/
def appInv (st : AppState) : Prop :=
  criteriaFive st.criteria ∧ ∀ t ∈ st.templates, criteriaFive t.criteria

/- ===== Structured AI response handling (the service module in src) ===== -/

/-- Abstract JSON values, the possible results of the host JSON.parse. -/
inductive Json where
  | null
  | bool (b : Bool)
  | num (n : Int)
  | str (s : String)
  | arr (xs : List Json)
  | obj (fields : List (String × Json))

/-- Embeds the Array.isArray test of the service module. -/
def Json.isArr : Json → Bool
  | Json.arr _ => true
  | _ => false

/-- Embeds the response handling of generateRubricCriteria in the service
module: an absent or empty response text raises, an unparseable text raises
(the catch rethrows), and a parsed value is returned when it is an array and
replaced by the empty array otherwise.  JSON.parse is the abstract parse
parameter; the absent text of the host API is the none case. -/
def processRubricResponse (parseJson : String → Option Json) (text : Option String) :
    Except String Json :=
  match text with
  | none => Except.error "AI returned empty response"
  | some t =>
    if t = "" then Except.error "AI returned empty response"
    else
      match parseJson t with
      | none => Except.error "Failed to parse AI response"
      | some data => Except.ok (if data.isArr then data else Json.arr [])

/-- Embeds the response handling of evaluateStudentWork in the service
module: an absent or empty response text raises, an unparseable text raises
(the catch rethrows), and the parsed value is returned unchanged (the cast
to GradingResult is type-level only). -/
def processEvaluateResponse (parseJson : String → Option Json) (text : Option String) :
    Except String Json :=
  match text with
  | none => Except.error "Empty AI response"
  | some t =>
    if t = "" then Except.error "Empty AI response"
    else
      match parseJson t with
      | none => Except.error "Parsing error"
      | some data => Except.ok data

/- ===== Concrete fixtures for witnesses and counterexamples ===== -/

/-- A single criterion whose level scores are the default 100, 89, 79, 69,
59. -/
def critsDefault : List Criterion := [⟨"c1", "", DEFAULT_LEVELS⟩]

/-- A student with the single answer x, used for the CSV round trip. -/
def c1Student : Student := ⟨"s1", "小美", ["x"], "", none, "", Status.idle, none⟩

/-- A student with one non-blank answer, used by the batch-failure witness. -/
def c4Student : Student := ⟨"s4", "甲", ["hello"], "", none, "", Status.idle, none⟩

/-- A student whose only answer is blank: not yet graded, yet skipped by the
targets filter. -/
def c5Student : Student := ⟨"s5", "學生 1", [""], "", none, "", Status.idle, none⟩

/-- An evaluation oracle that always fails, modelling a network error. -/
def oracleErr : Student → Except String GradingResult := fun _ => Except.error "network"

/-- A grading result whose score 150 lies outside every default band. -/
def c9Res : GradingResult := ⟨150, "表現良好", "evaluation feedback"⟩

/-- An evaluation oracle that always succeeds with c9Res. -/
def oracleC9 : Student → Except String GradingResult := fun _ => Except.ok c9Res

/-- A parse oracle agreeing with the host JSON.parse on the text 5: that text
parses to the JSON number five. -/
def parseOracleNum : String → Option Json :=
  fun s => if s = "5" then some (Json.num 5) else none

/- ===================== Theorems ===================== -/

/-- Helper: the loop of runBatch invokes the evaluation oracle on exactly the
students of its input list, in order, whatever the per-student outcomes. -/
theorem runBatch_trace (oracle : Student → Except String GradingResult)
    (criteria : List Criterion) :
    ∀ (l : List Student) (st : BatchState), (runBatch oracle criteria st l).2 = l := by
  intro l
  induction l with
  | nil => intro st; rfl
  | cons s rest ih => intro st; simp [runBatch, ih]

/-- Helper: when the evaluation of a student fails, the net effect of the
loop body is the per-student error update on the matching id and the toast. -/
theorem gradeOne_error_eq (oracle : Student → Except String GradingResult)
    (criteria : List Criterion) (st : BatchState) (s : Student) (e : String)
    (h : oracle s = Except.error e) :
    gradeOne oracle criteria st s
      = { students := st.students.map (errUpdate s.id), errorToast := some toastMsg } := by
  unfold gradeOne
  rw [h]
  simp only [applyFailure, markLoading, List.map_map]
  congr 1
  refine List.map_congr_left ?_
  intro x _
  by_cases hx : (x.id == s.id) = true <;> simp [Function.comp, hx, errUpdate]

/-- Helper: when the evaluation of a student succeeds, the net effect of the
loop body is the per-student success update on the matching id, with the
toast untouched. -/
theorem gradeOne_ok_eq (oracle : Student → Except String GradingResult)
    (criteria : List Criterion) (st : BatchState) (s : Student) (res : GradingResult)
    (h : oracle s = Except.ok res) :
    gradeOne oracle criteria st s
      = { students := st.students.map (okUpdate criteria s.id res),
          errorToast := st.errorToast } := by
  unfold gradeOne
  rw [h]
  simp only [applySuccess, markLoading, List.map_map]
  congr 1
  refine List.map_congr_left ?_
  intro x _
  by_cases hx : (x.id == s.id) = true <;> simp [Function.comp, hx, okUpdate]

/-- C1: evaluating the export-then-import round trip on a student list with
the single answer x shows the name survives but the answer comes back
wrapped in the literal double quotes that the export added and the import
never strips, so the round trip does not reproduce the answer fields. -/
theorem csv_roundtrip_mangles_answers :
    ((csvImport (csvExport [c1Student] [""]) [""]).map (fun s => (s.name, s.contents))
        = [("小美", ["\"x\""])]) ∧ (["\"x\""] : List String) ≠ ["x"] :=
  ⟨rfl, by decide⟩

/-- C3: for a single criterion whose level scores are 100, 89, 79, 69, 59,
the derived thresholds classify the total score 85 as the label of the
second-highest default level. -/
theorem single_criterion_85_second_label :
    getLevelLabelFromScore critsDefault 85 = "表現良好" ∧
    splitBase ((DEFAULT_LEVELS.getD 1 defaultLevel).label) = "表現良好" :=
  ⟨rfl, rfl⟩

/-- C5 counterexample: a student who is not done but has only a blank answer
receives no evaluation call, refuting the claim that every student lacking a
result is invoked. -/
theorem batch_skips_blank_not_done_student :
    c5Student.status ≠ Status.done ∧
    (startBatchGrading oracleErr [] { students := [c5Student], errorToast := none }).2 = [] ∧
    ([] : List Student) ≠ [c5Student] :=
  ⟨by decide, rfl, by decide⟩

/-- C5 (amended): starting a batch invokes the per-student evaluation exactly
once for each student whose status is not done and who has at least one
answer that is non-blank after trimming, sequentially in list order, and for
no other student. -/
theorem batch_calls_exactly_targets (oracle : Student → Except String GradingResult)
    (criteria : List Criterion) (students : List Student) (toast : Option String) :
    (startBatchGrading oracle criteria { students := students, errorToast := toast }).2
      = students.filter isTarget := by
  simp [startBatchGrading, runBatch_trace]

/-- Helper: a criterion with exactly five levels bumps each rawFloors entry
by its spec-side per-criterion floor. -/
theorem bumpFloors_five (c : Criterion) (hc : c.levels.length = 5)
    (a0 a1 a2 a3 a4 : Int) :
    bumpFloors c 0 [a0, a1, a2, a3, a4]
      = [a0 + specLevelFloor c 0, a1 + specLevelFloor c 1, a2 + specLevelFloor c 2,
         a3 + specLevelFloor c 3, a4 + specLevelFloor c 4] := by
  norm_num [bumpFloors, hc, lowerBound, specLevelFloor]

/-- Helper: the rawFloors accumulation over criteria with exactly five levels
adds, per entry, the sum of the spec-side per-criterion floors. -/
theorem foldl_bumpFloors_spec :
    ∀ (criteria : List Criterion), (∀ c ∈ criteria, c.levels.length = 5) →
      ∀ a0 a1 a2 a3 a4 : Int,
        criteria.foldl (fun acc c => bumpFloors c 0 acc) [a0, a1, a2, a3, a4]
          = [a0 + specFloor criteria 0, a1 + specFloor criteria 1, a2 + specFloor criteria 2,
             a3 + specFloor criteria 3, a4 + specFloor criteria 4] := by
  intro criteria
  induction criteria with
  | nil => intro _ a0 a1 a2 a3 a4; simp [specFloor]
  | cons c cs ih =>
    intro h5 a0 a1 a2 a3 a4
    have hc : c.levels.length = 5 := h5 c (by simp)
    have h5' : ∀ x ∈ cs, x.levels.length = 5 := fun x hx => h5 x (List.mem_cons_of_mem _ hx)
    rw [List.foldl_cons, bumpFloors_five c hc, ih h5']
    simp [specFloor, add_assoc]

/-- Helper: the rawFloors vector of criteria with exactly five levels each is
the spec-side floor vector. -/
theorem rawFloorsList_spec (criteria : List Criterion)
    (h5 : ∀ c ∈ criteria, c.levels.length = 5) :
    rawFloorsList criteria
      = [specFloor criteria 0, specFloor criteria 1, specFloor criteria 2,
         specFloor criteria 3, specFloor criteria 4] := by
  simpa [rawFloorsList] using foldl_bumpFloors_spec criteria h5 0 0 0 0 0

/-- Helper: the maxPossibleScore accumulation is the sum of the top-level
scores. -/
theorem maxPossibleScore_spec (criteria : List Criterion) :
    maxPossibleScore criteria = specTopScoreSum criteria := by
  have key : ∀ (l : List Criterion) (init : Int),
      l.foldl (fun acc c => acc + (c.levels.getD 0 defaultLevel).score) init
        = init + (l.map (fun c => (c.levels.getD 0 defaultLevel).score)).sum := by
    intro l
    induction l with
    | nil => intro init; simp
    | cons c cs ih => intro init; rw [List.foldl_cons, ih, List.map_cons, List.sum_cons]; ring
  simpa [maxPossibleScore, specTopScoreSum] using key criteria 0

/-- Helper: the computed threshold table, written with the spec-side floors
and ceilings. -/
theorem totalScoreThresholds_spec (criteria : List Criterion)
    (h5 : ∀ c ∈ criteria, c.levels.length = 5) :
    totalScoreThresholds criteria
      = [⟨splitBase ((DEFAULT_LEVELS.getD 0 defaultLevel).label),
            specFloor criteria 0, specCeiling criteria 0⟩,
         ⟨splitBase ((DEFAULT_LEVELS.getD 1 defaultLevel).label),
            specFloor criteria 1, specCeiling criteria 1⟩,
         ⟨splitBase ((DEFAULT_LEVELS.getD 2 defaultLevel).label),
            specFloor criteria 2, specCeiling criteria 2⟩,
         ⟨splitBase ((DEFAULT_LEVELS.getD 3 defaultLevel).label),
            specFloor criteria 3, specCeiling criteria 3⟩,
         ⟨splitBase ((DEFAULT_LEVELS.getD 4 defaultLevel).label),
            specFloor criteria 4, specCeiling criteria 4⟩] := by
  unfold totalScoreThresholds
  rw [rawFloorsList_spec criteria h5]
  simp only [maxPossibleScore_spec]
  rfl

/-- C2: for every list of criteria with exactly five ordered levels each, the
computed thresholds have, per level, the spec-side floor (the sum across all
criteria of the next-lower level's score plus one, zero at the bottom) and
the spec-side ceiling (the adjacent higher level's floor minus one, and the
sum of the top-level scores at the top), and a total score bracketed by some
band is classified to the label of a band bracketing it. -/
theorem thresholds_and_classification_spec (criteria : List Criterion)
    (h5 : ∀ c ∈ criteria, c.levels.length = 5) :
    (∀ i : Nat, i < 5 →
      ∃ t : Threshold, (totalScoreThresholds criteria)[i]? = some t ∧
        t.label = splitBase ((DEFAULT_LEVELS.getD i defaultLevel).label) ∧
        t.floor = specFloor criteria i ∧ t.ceiling = specCeiling criteria i) ∧
    (∀ score : Int,
      (∃ t ∈ totalScoreThresholds criteria, t.floor ≤ score ∧ score ≤ t.ceiling) →
      ∃ t ∈ totalScoreThresholds criteria, t.floor ≤ score ∧ score ≤ t.ceiling ∧
        getLevelLabelFromScore criteria score = t.label) := by
  constructor
  · intro i hi
    rw [totalScoreThresholds_spec criteria h5]
    interval_cases i <;> exact ⟨_, rfl, rfl, rfl, rfl⟩
  · intro score hex
    obtain ⟨t, ht, hfl, hcl⟩ := hex
    have hsome : ((totalScoreThresholds criteria).find? (bandMatches score)).isSome := by
      rw [List.find?_isSome]
      exact ⟨t, ht, by simp [bandMatches, hfl, hcl]⟩
    obtain ⟨u, hu⟩ := Option.isSome_iff_exists.mp hsome
    have hpu := List.find?_some hu
    simp only [bandMatches, Bool.and_eq_true, decide_eq_true_eq] at hpu
    exact ⟨u, List.mem_of_find?_eq_some hu, hpu.1, hpu.2,
      by simp [getLevelLabelFromScore, hu]⟩

/-- C2 witness: the theorem applied to the single default criterion, read off
at level index one. -/
theorem thresholds_and_classification_spec_witness :
    (∀ c ∈ critsDefault, c.levels.length = 5) ∧
    (∃ t : Threshold, (totalScoreThresholds critsDefault)[1]? = some t ∧
      t.label = splitBase ((DEFAULT_LEVELS.getD 1 defaultLevel).label) ∧
      t.floor = specFloor critsDefault 1 ∧ t.ceiling = specCeiling critsDefault 1) :=
  ⟨by decide, (thresholds_and_classification_spec critsDefault (by decide)).1 1 (by norm_num)⟩

/-- C7: after the startup load and any sequence of template-list changes
(saves and deletions), the single named storage slot holds exactly the
serialization of the current template list. -/
theorem template_storage_holds_serialization
    (serialize : List Template → String) (parse : String → Option (List Template))
    (slot : Option String) (ops : List TemplateOp) :
    (runTemplateOps serialize (startupLoad serialize parse slot) ops).storageSlot
      = some (serialize
          (runTemplateOps serialize (startupLoad serialize parse slot) ops).templates) := by
  have key : ∀ (ops : List TemplateOp) (st : PersistState),
      st.storageSlot = some (serialize st.templates) →
      (runTemplateOps serialize st ops).storageSlot
        = some (serialize (runTemplateOps serialize st ops).templates) := by
    intro ops
    induction ops with
    | nil => intro st h; exact h
    | cons op rest ih =>
      intro st h
      have hstep : (applyTemplateOp serialize st op).storageSlot
          = some (serialize (applyTemplateOp serialize st op).templates) := by
        cases op <;> rfl
      simpa [runTemplateOps] using ih _ hstep
  exact key ops _ rfl

/-- C4: when a student's evaluation fails, the failure is caught at the call
site: after the loop body the toast is raised, the students list is exactly
the per-student error update mapped over it (so only the matching id gains
the error status and message), and the loop still invokes the evaluation on
every remaining student of the batch. -/
theorem batch_failure_caught_and_continues (oracle : Student → Except String GradingResult)
    (criteria : List Criterion) (st : BatchState) (s : Student) (rest : List Student)
    (e : String) (h : oracle s = Except.error e) :
    (gradeOne oracle criteria st s).errorToast = some toastMsg ∧
    (gradeOne oracle criteria st s).students = st.students.map (errUpdate s.id) ∧
    (runBatch oracle criteria st (s :: rest)).2 = s :: rest := by
  rw [gradeOne_error_eq oracle criteria st s e h]
  exact ⟨rfl, rfl, runBatch_trace oracle criteria (s :: rest) st⟩

/-- C4 witness: the theorem at a concrete failing oracle and student. -/
theorem batch_failure_caught_witness :
    oracleErr c4Student = Except.error "network" ∧
    ((gradeOne oracleErr [] { students := [c4Student], errorToast := none } c4Student).errorToast
        = some toastMsg ∧
      (gradeOne oracleErr [] { students := [c4Student], errorToast := none } c4Student).students
        = [c4Student].map (errUpdate c4Student.id) ∧
      (runBatch oracleErr [] { students := [c4Student], errorToast := none } (c4Student :: [])).2
        = c4Student :: []) :=
  ⟨rfl, batch_failure_caught_and_continues oracleErr []
    { students := [c4Student], errorToast := none } c4Student [] "network" rfl⟩

/-- C9: on a successful evaluation the matching student is stored with the
level label recomputed from the returned score through the derived
thresholds; the levelLabel returned by the AI is ignored (rewriting it in
the oracle's results changes nothing); and a score bracketed by no band
yields the sentinel label rather than a failure. -/
theorem success_label_recomputed (oracle : Student → Except String GradingResult)
    (criteria : List Criterion) (st : BatchState) (s : Student) (res : GradingResult)
    (h : oracle s = Except.ok res) :
    (gradeOne oracle criteria st s).students
      = st.students.map (okUpdate criteria s.id res) ∧
    (∀ lbl : String,
      gradeOne (fun x => (oracle x).map (fun r => { r with levelLabel := lbl })) criteria st s
        = gradeOne oracle criteria st s) ∧
    ((∀ t ∈ totalScoreThresholds criteria, ¬ (t.floor ≤ res.score ∧ res.score ≤ t.ceiling)) →
      getLevelLabelFromScore criteria res.score = "未判定") := by
  refine ⟨?_, ?_, ?_⟩
  · rw [gradeOne_ok_eq oracle criteria st s res h]
  · intro lbl
    have h' : (fun x => (oracle x).map (fun r => { r with levelLabel := lbl })) s
        = Except.ok { res with levelLabel := lbl } := by simp [h, Except.map]
    rw [gradeOne_ok_eq _ criteria st s _ h', gradeOne_ok_eq oracle criteria st s res h]
    rfl
  · intro hnone
    have hfind : (totalScoreThresholds criteria).find? (bandMatches res.score) = none := by
      rw [List.find?_eq_none]
      intro t ht
      simpa [bandMatches] using hnone t ht
    simp [getLevelLabelFromScore, hfind]

/-- C9 witness: the theorem at a concrete succeeding oracle whose returned
score 150 lies outside every band of the default single criterion. -/
theorem success_label_recomputed_witness :
    oracleC9 c4Student = Except.ok c9Res ∧
    getLevelLabelFromScore critsDefault c9Res.score = "未判定" :=
  ⟨rfl, (success_label_recomputed oracleC9 critsDefault
      { students := [c4Student], errorToast := none } c4Student c9Res rfl).2.2 (by decide)⟩

/-- C10: when a student's evaluation fails, positionally every student record
either is unchanged (different id) or changes only in status and error
message, keeping its id, name, answers, score, feedback and level label. -/
theorem failure_touches_only_status_and_error (oracle : Student → Except String GradingResult)
    (criteria : List Criterion) (st : BatchState) (s : Student) (e : String)
    (h : oracle s = Except.error e) :
    ∀ (i : Nat) (x : Student), st.students[i]? = some x →
      ((x.id = s.id →
        (gradeOne oracle criteria st s).students[i]?
          = some { x with status := Status.error, errorMsg := some errMsgText }) ∧
       (x.id ≠ s.id → (gradeOne oracle criteria st s).students[i]? = some x)) := by
  intro i x hx
  rw [gradeOne_error_eq oracle criteria st s e h]
  constructor
  · intro hid
    simp [List.getElem?_map, hx, errUpdate, hid]
  · intro hid
    simp [List.getElem?_map, hx, errUpdate, hid]

/-- C10 witness: the theorem at a concrete failing oracle, on the matching
index. -/
theorem failure_frame_witness :
    oracleErr c5Student = Except.error "network" ∧
    ({ students := [c5Student], errorToast := none } : BatchState).students[0]? = some c5Student ∧
    (gradeOne oracleErr [] { students := [c5Student], errorToast := none } c5Student).students[0]?
      = some { c5Student with status := Status.error, errorMsg := some errMsgText } :=
  ⟨rfl, rfl,
    ((failure_touches_only_status_and_error oracleErr []
        { students := [c5Student], errorToast := none } c5Student "network" rfl)
      0 c5Student rfl).1 rfl⟩

/-- C6 counterexample: with a parse oracle agreeing with the host JSON.parse
on the text 5, the rubric call neither raises an error nor returns the
parsed structured value when the parsed value is not an array: it returns
the empty array. -/
theorem rubric_nonarray_neither_error_nor_value :
    parseOracleNum "5" = some (Json.num 5) ∧
    processRubricResponse parseOracleNum (some "5") = Except.ok (Json.arr []) ∧
    (Except.ok (Json.arr []) : Except String Json) ≠ Except.ok (Json.num 5) :=
  ⟨rfl, rfl, by
    intro hcontra
    injection hcontra with hjson
    exact Json.noConfusion hjson⟩

/-- C6 (amended): for both structured calls, an absent or empty response text
and an unparseable text raise an error; when parsing succeeds, the
evaluate-student call returns the parsed value, while the generate-rubric
call returns the parsed value when it is an array and the empty array
otherwise. -/
theorem structured_response_handling (parse : String → Option Json) (t : String) (v : Json)
    (ht : ¬ t = "") (hv : parse t = some v) :
    processEvaluateResponse parse (some t) = Except.ok v ∧
    processRubricResponse parse (some t)
      = Except.ok (if v.isArr then v else Json.arr []) ∧
    (∀ u : String, ¬ u = "" → parse u = none →
      processEvaluateResponse parse (some u) = Except.error "Parsing error" ∧
      processRubricResponse parse (some u) = Except.error "Failed to parse AI response") ∧
    processEvaluateResponse parse none = Except.error "Empty AI response" ∧
    processRubricResponse parse none = Except.error "AI returned empty response" ∧
    processEvaluateResponse parse (some "") = Except.error "Empty AI response" ∧
    processRubricResponse parse (some "") = Except.error "AI returned empty response" := by
  refine ⟨?_, ?_, ?_, rfl, rfl, rfl, rfl⟩
  · simp [processEvaluateResponse, ht, hv]
  · simp [processRubricResponse, ht, hv]
  · intro u hu hpu
    exact ⟨by simp [processEvaluateResponse, hu, hpu],
      by simp [processRubricResponse, hu, hpu]⟩

/-- C6 witness: the amended behaviour at the concrete parse oracle: a
non-empty parseable text makes the evaluate call return the parsed value. -/
theorem structured_response_handling_witness :
    ¬ "5" = "" ∧ parseOracleNum "5" = some (Json.num 5) ∧
    processEvaluateResponse parseOracleNum (some "5") = Except.ok (Json.num 5) :=
  ⟨by decide, rfl,
    (structured_response_handling parseOracleNum "5" (Json.num 5) (by decide) rfl).1⟩

/-- Helper: an element of modifyIdx is an element of the original list or the
image of one under the modification. -/
theorem mem_modifyIdx {α : Type} (f : α → α) :
    ∀ (i : Nat) (l : List α) (x : α), x ∈ modifyIdx f i l → x ∈ l ∨ ∃ a ∈ l, x = f a := by
  intro i
  induction i with
  | zero =>
    intro l x hx
    cases l with
    | nil => simp [modifyIdx] at hx
    | cons a as =>
      simp only [modifyIdx, List.mem_cons] at hx
      rcases hx with h | h
      · exact Or.inr ⟨a, by simp, h⟩
      · exact Or.inl (by simp [h])
  | succ n ih =>
    intro l x hx
    cases l with
    | nil => simp [modifyIdx] at hx
    | cons a as =>
      simp only [modifyIdx, List.mem_cons] at hx
      rcases hx with h | h
      · exact Or.inl (by simp [h])
      · rcases ih as x h with h' | ⟨b, hb, hbx⟩
        · exact Or.inl (List.mem_cons_of_mem _ h')
        · exact Or.inr ⟨b, List.mem_cons_of_mem _ hb, hbx⟩

/-- Helper: modifyIdx keeps the list length. -/
theorem length_modifyIdx {α : Type} (f : α → α) :
    ∀ (i : Nat) (l : List α), (modifyIdx f i l).length = l.length := by
  intro i
  induction i with
  | zero => intro l; cases l <;> rfl
  | succ n ih =>
    intro l
    cases l with
    | nil => rfl
    | cons a as => simp [modifyIdx, ih]

/-- Helper: overwriting level descriptions keeps the number of levels. -/
theorem length_applyRubricTexts :
    ∀ (ts : List String) (ls : List Level), (applyRubricTexts ts ls).length = ls.length := by
  intro ts
  induction ts with
  | nil => intro ls; cases ls <;> rfl
  | cons t ts ih =>
    intro ls
    cases ls with
    | nil => rfl
    | cons l ls' => simp [applyRubricTexts, ih]

/-- Helper: every UI operation preserves the five-levels invariant. -/
theorem appInv_preserved (st : AppState) (op : AppOp) (h : appInv st) :
    appInv (applyAppOp st op) := by
  obtain ⟨hc, ht⟩ := h
  cases op with
  | addCriterion id =>
    refine ⟨?_, ht⟩
    intro c hm
    rcases List.mem_append.mp hm with h1 | h1
    · exact hc c h1
    · simp only [List.mem_singleton] at h1
      subst h1
      rfl
  | removeCriterion cid =>
    exact ⟨fun c hm => hc c (List.mem_of_mem_filter hm), ht⟩
  | setFocus i text =>
    refine ⟨?_, ht⟩
    intro c hm
    rcases mem_modifyIdx _ i _ c hm with h1 | ⟨a, ha, rfl⟩
    · exact hc c h1
    · exact hc a ha
  | setLevelScore i j v =>
    refine ⟨?_, ht⟩
    intro c hm
    rcases mem_modifyIdx _ i _ c hm with h1 | ⟨a, ha, rfl⟩
    · exact hc c h1
    · show (modifyIdx _ j a.levels).length = 5
      rw [length_modifyIdx]
      exact hc a ha
  | setLevelCriteria i j text =>
    refine ⟨?_, ht⟩
    intro c hm
    rcases mem_modifyIdx _ i _ c hm with h1 | ⟨a, ha, rfl⟩
    · exact hc c h1
    · show (modifyIdx _ j a.levels).length = 5
      rw [length_modifyIdx]
      exact hc a ha
  | applyRubric i texts =>
    refine ⟨?_, ht⟩
    intro c hm
    rcases mem_modifyIdx _ i _ c hm with h1 | ⟨a, ha, rfl⟩
    · exact hc c h1
    · show (applyRubricTexts texts a.levels).length = 5
      rw [length_applyRubricTexts]
      exact hc a ha
  | saveTemplate id name timestamp =>
    refine ⟨hc, ?_⟩
    intro t htm
    rcases List.mem_cons.mp htm with h1 | h1
    · subst h1; exact hc
    · exact ht t h1
  | loadTemplate tid =>
    rcases hfind : st.templates.find? (fun t => t.id == tid) with _ | t
    · simpa [applyAppOp, hfind] using ⟨hc, ht⟩
    · have hmem := List.mem_of_find?_eq_some hfind
      simpa [applyAppOp, hfind] using ⟨ht t hmem, ht⟩
  | resetRubric id =>
    refine ⟨?_, ht⟩
    intro c hm
    have hm' : c ∈ [defaultCriterion id] := hm
    simp only [List.mem_singleton] at hm'
    subst hm'
    rfl
  | deleteTemplate tid =>
    exact ⟨hc, fun t hm => ht t (List.mem_of_mem_filter hm)⟩
  | addTask => exact ⟨hc, ht⟩
  | removeTask i => exact ⟨hc, ht⟩
  | setTask i text => exact ⟨hc, ht⟩

/-- C8: from the initial state, every state reachable through the UI
operations keeps every criterion — the initial one, newly added ones, and
those inside or loaded from templates saved by this application — at exactly
five levels; in particular no operation changes a criterion's number of
levels. -/
theorem five_levels_invariant (id0 : String) (ops : List AppOp) :
    appInv (runAppOps (initApp id0) ops) := by
  have key : ∀ (ops : List AppOp) (st : AppState), appInv st → appInv (runAppOps st ops) := by
    intro ops
    induction ops with
    | nil => intro st h; exact h
    | cons op rest ih =>
      intro st h
      simpa [runAppOps] using ih _ (appInv_preserved st op h)
  refine key ops _ ⟨?_, ?_⟩
  · intro c hm
    simp only [initApp, List.mem_singleton] at hm
    subst hm
    rfl
  · intro t htm
    simp [initApp] at htm

end RatingMagic
